import Mathlib

/-!
Shallow embedding of the token-based authentication engine
(JWT issuing, refresh-token rotation with theft detection, refresh
coordinator queue, auth middleware) of the `prosKick-back` repository.

Sources embedded:
* `src/services/jwt.service.ts` (`JWTService`): `hash_token`,
  `calculate_expiry`, `generate_token_pair`, `verify_access_token`,
  `verify_refresh_token`, `rotate_refresh_token`, `revoke_refresh_token`,
  `revoke_all_user_tokens`, `revoke_token_family`.
* `src/models/refresh_token.model.ts`: the `RefreshTokenRecord` shape and
  the store updates (`findOne`, `updateOne`, `updateMany`).
* `src/services/refresh_queue.service.ts` (`RefreshQueueService`):
  `create_job_id`, BullMQ job-id deduplication, `add_refresh_job`.
* `src/middleware/auth.middleware.ts` (dual-channel variant):
  `authenticate_token`.

Modelling conventions:
* Time is `Nat` milliseconds; `Date.now()` becomes an explicit `now`
  parameter at each operation.
* A signed JWT (the output of `jwt.sign`) is the structure `JwtToken`
  carrying its payload, the signing secret, the issue time `iat` and the
  expiry instant `exp`; `jwt.verify` checks the secret and the expiry.
  Two `jwt.sign` calls with the same payload, secret, issue time and
  expiry produce the identical token string, which is why `JwtToken`
  equality models string equality of tokens.
* `crypto.createHash("sha256")` is modelled as an injective function:
  fingerprints collide exactly when the hashed tokens are equal, so the
  fingerprint of a token is represented by the token itself.
* `uuidv4()` is modelled by a fresh-identifier supply (`next_uuid`)
  threaded through the system state; family ids are `Nat`.
* MongoDB is modelled as an in-memory list of records in insertion
  order: `findOne` returns the first match, `updateOne` updates the
  first match, `updateMany` updates every match.
-/

namespace ProsKickback

/-- Device types (`e_device_type` in `refresh_token.model.ts`). -/
inductive e_device_type
  | web
  | mobile
deriving DecidableEq, Repr

/-- JWT payloads: `IAccessTokenPayload` (`{user_id, type: "access"}`) or
`IRefreshTokenPayload` (`{user_id, family_id, device_type, type: "refresh"}`).
The `type` discriminator claim is the constructor. -/
inductive TokenPayload
  | access (user_id : String)
  | refresh (user_id : String) (family_id : Nat) (device_type : e_device_type)
deriving DecidableEq, Repr

/-- A signed JWT: the symbolic output of `jwt.sign(payload, secret, {expiresIn})`
called at instant `iat` with expiry instant `exp`. -/
structure JwtToken where
  payload : TokenPayload
  secret : String
  iat : Nat
  exp : Nat
deriving DecidableEq, Repr

/-- Default `JWT_SECRET` from `config/environment.ts`. -/
def JWT_SECRET : String :=
  "mi-clave-secreta-super-segura-de-al-menos-32-caracteres-para-desarrollo"

/-- Default `JWT_REFRESH_SECRET` from `config/environment.ts`. -/
def JWT_REFRESH_SECRET : String :=
  "mi-refresh-secret-super-segura-de-al-menos-32-caracteres-para-desarrollo"

/-- Default `JWT_ACCESS_EXPIRY` from `config/environment.ts`. -/
def JWT_ACCESS_EXPIRY : String := "15m"

/-- Default `JWT_REFRESH_EXPIRY_WEB` from `config/environment.ts`. -/
def JWT_REFRESH_EXPIRY_WEB : String := "7d"

/-- Default `JWT_REFRESH_EXPIRY_MOBILE` from `config/environment.ts`. -/
def JWT_REFRESH_EXPIRY_MOBILE : String := "90d"

/-- Outcome taxonomy of `jsonwebtoken`'s `jwt.verify`:
`TokenExpiredError` or `JsonWebTokenError` (bad signature / malformed). -/
inductive JwtVerifyError
  | token_expired
  | json_web_token_error
deriving DecidableEq, Repr

/-- `jwt.verify(token, secret)` at instant `now`: signature is checked first,
then the expiry claim (`jsonwebtoken` treats `now ≥ exp` as expired). -/
def jwt_verify (token : JwtToken) (secret : String) (now : Nat) :
    Except JwtVerifyError TokenPayload :=
  if token.secret ≠ secret then .error .json_web_token_error
  else if token.exp ≤ now then .error .token_expired
  else .ok token.payload

/-- Decoded access payload (`IAccessTokenPayload` minus the constant `type`). -/
structure IAccessTokenPayload where
  user_id : String
deriving DecidableEq, Repr

/-- Decoded refresh payload (`IRefreshTokenPayload` minus the constant `type`). -/
structure IRefreshTokenPayload where
  user_id : String
  family_id : Nat
  device_type : e_device_type
deriving DecidableEq, Repr

/-- `JWTService.verify_access_token`: verify against `JWT_SECRET`, then check
the `type` claim; errors are converted to the messages of the `catch` block
(a wrong `type` claim re-throws its own message). -/
def verify_access_token (token : JwtToken) (now : Nat) :
    Except String IAccessTokenPayload :=
  match jwt_verify token JWT_SECRET now with
  | .error .token_expired => .error "Access token expired"
  | .error .json_web_token_error => .error "Invalid access token"
  | .ok (.access user_id) => .ok ⟨user_id⟩
  | .ok (.refresh ..) => .error "Invalid token type"

/-- `JWTService.verify_refresh_token`: verify against `JWT_REFRESH_SECRET`,
then check the `type` claim; errors are converted to the messages of the
`catch` block (a wrong `type` claim re-throws its own message). -/
def verify_refresh_token (token : JwtToken) (now : Nat) :
    Except String IRefreshTokenPayload :=
  match jwt_verify token JWT_REFRESH_SECRET now with
  | .error .token_expired => .error "Refresh token expired"
  | .error .json_web_token_error => .error "Invalid refresh token"
  | .ok (.refresh user_id family_id device_type) =>
      .ok ⟨user_id, family_id, device_type⟩
  | .ok (.access _) => .error "Invalid token type"

/-- `JWTService.hash_token`: SHA-256 modelled as an injective function, so a
fingerprint is represented by the token it was derived from. -/
def hash_token (token : JwtToken) : JwtToken := token

/-- `parseInt(s, 10)` on a nonnegative decimal: leading digits, `NaN` (`none`)
when there is no leading digit. -/
def parse_int (s : String) : Option Nat :=
  let ds := s.toList.takeWhile Char.isDigit
  if ds.isEmpty then none
  else some (ds.foldl (fun a c => a * 10 + (c.toNat - 48)) 0)

/-- The `multipliers` table of `JWTService.calculate_expiry` (milliseconds). -/
def expiry_multiplier : Char → Option Nat
  | 's' => some 1000
  | 'm' => some (60 * 1000)
  | 'h' => some (60 * 60 * 1000)
  | 'd' => some (24 * 60 * 60 * 1000)
  | _ => none

/-- Duration in milliseconds denoted by an expiry string such as `"15m"`:
`value = parseInt(slice(0,-1))`, `unit = slice(-1)`; `none` models the
`Invalid expiry format` throw (and an unparsable value). -/
def expiry_duration_ms (expiry_string : String) : Option Nat :=
  match expiry_string.toList.getLast? with
  | none => none
  | some unit =>
    match parse_int (String.mk expiry_string.toList.dropLast),
          expiry_multiplier unit with
    | some value, some multiplier => some (value * multiplier)
    | _, _ => none

/-- `JWTService.calculate_expiry`: `new Date(now + value * multiplier)`. -/
def calculate_expiry (expiry_string : String) (now : Nat) : Option Nat :=
  (expiry_duration_ms expiry_string).map (now + ·)

/-- A row of the `refresh_tokens` collection (`refresh_token.model.ts`). -/
structure RefreshTokenRecord where
  user_id : String
  token_hash : JwtToken
  family_id : Nat
  device_type : e_device_type
  expires_at : Nat
  created_at : Nat
  is_revoked : Bool
deriving DecidableEq, Repr

/-- The `refresh_tokens` collection in insertion order. -/
abbrev Store := List RefreshTokenRecord

/-- `RefreshToken.findOne({ token_hash })`: first record with this hash. -/
def find_one_by_hash : Store → JwtToken → Option RefreshTokenRecord
  | [], _ => none
  | r :: rs, h => if r.token_hash = h then some r else find_one_by_hash rs h

/-- `RefreshToken.updateOne({ token_hash }, { is_revoked: true })`:
revoke the first record with this hash, leave everything else unchanged. -/
def update_one_by_hash : Store → JwtToken → Store
  | [], _ => []
  | r :: rs, h =>
    if r.token_hash = h then { r with is_revoked := true } :: rs
    else r :: update_one_by_hash rs h

/-- `RefreshToken.updateMany({ family_id }, { is_revoked: true })`:
revoke every record of the family. -/
def update_many_by_family (st : Store) (family_id : Nat) : Store :=
  st.map fun r =>
    if r.family_id = family_id then { r with is_revoked := true } else r

/-- `RefreshToken.updateMany({ user_id, is_revoked: false }, { is_revoked: true })`
from `revoke_all_user_tokens`. -/
def update_many_by_user (st : Store) (user_id : String) : Store :=
  st.map fun r =>
    if r.user_id = user_id ∧ r.is_revoked = false then
      { r with is_revoked := true }
    else r

/-- `RefreshToken.updateMany({ family_id, is_revoked: false }, { is_revoked: true })`
from `revoke_token_family`. -/
def update_many_by_family_unrevoked (st : Store) (family_id : Nat) : Store :=
  st.map fun r =>
    if r.family_id = family_id ∧ r.is_revoked = false then
      { r with is_revoked := true }
    else r

/-- Mutable system state: the token store plus the fresh-uuid supply. -/
structure SysState where
  store : Store
  next_uuid : Nat
deriving DecidableEq, Repr

/-- `ITokenPair` returned by `generate_token_pair`. -/
structure ITokenPair where
  access_token : JwtToken
  refresh_token : JwtToken
  access_expires_in : String
  refresh_expires_in : String
deriving DecidableEq, Repr

/-- `JWTService.generate_token_pair(user_id, device_type, family_id?)` at
instant `now`: mint a family id when absent, sign both tokens, persist the
new store row (`is_revoked = false`), return the pair. The `.error` branch is
the re-thrown `Failed to generate authentication tokens` (unreachable for the
fixed environment expiry strings). -/
def generate_token_pair (user_id : String) (device_type : e_device_type)
    (family_id : Option Nat) (now : Nat) (s : SysState) :
    Except String (ITokenPair × SysState) :=
  let token_family_id := match family_id with
    | some f => f
    | none => s.next_uuid
  let next_uuid' := match family_id with
    | some _ => s.next_uuid
    | none => s.next_uuid + 1
  let refresh_expiry := match device_type with
    | .mobile => JWT_REFRESH_EXPIRY_MOBILE
    | .web => JWT_REFRESH_EXPIRY_WEB
  match expiry_duration_ms JWT_ACCESS_EXPIRY,
        expiry_duration_ms refresh_expiry with
  | some access_ms, some refresh_ms =>
    let access_token : JwtToken :=
      ⟨.access user_id, JWT_SECRET, now, now + access_ms⟩
    let refresh_token : JwtToken :=
      ⟨.refresh user_id token_family_id device_type, JWT_REFRESH_SECRET,
        now, now + refresh_ms⟩
    let token_hash := hash_token refresh_token
    let expires_at := now + refresh_ms
    let record : RefreshTokenRecord :=
      ⟨user_id, token_hash, token_family_id, device_type, expires_at, now, false⟩
    .ok (⟨access_token, refresh_token, JWT_ACCESS_EXPIRY, refresh_expiry⟩,
         ⟨s.store ++ [record], next_uuid'⟩)
  | _, _ => .error "Failed to generate authentication tokens"

/-- `ITokenRotationResult`: `success`, optional `tokens`, optional `error`
message and optional `should_logout` flag. -/
structure ITokenRotationResult where
  success : Bool
  tokens : Option ITokenPair
  error : Option String
  should_logout : Option Bool
deriving DecidableEq, Repr

/-- JavaScript's case-sensitive `String.prototype.includes`. -/
def string_includes (s sub : String) : Bool :=
  (List.range (s.length + 1)).any fun i => sub.toList.isPrefixOf (s.toList.drop i)

/-- The `catch` block of `rotate_refresh_token`: propagate the thrown message
when it contains `"expired"` or `"invalid"` (case-sensitively), otherwise
return the generic failure message. -/
def rotate_catch (msg : String) : ITokenRotationResult :=
  if string_includes msg "expired" || string_includes msg "invalid" then
    ⟨false, none, some msg, some false⟩
  else
    ⟨false, none, some "Failed to refresh token", some false⟩

/-- `JWTService.rotate_refresh_token(refresh_token)` at instant `now`:
1. verify signature/claims (failure → `catch`, no store access);
2. fetch the record by fingerprint;
3. absent or revoked → revoke the whole family, fail `should_logout = true`;
4. stored `expires_at < now` → revoke this record, fail `should_logout = false`;
5. otherwise revoke this record and issue a new pair in the same family. -/
def rotate_refresh_token (refresh_token : JwtToken) (now : Nat) (s : SysState) :
    ITokenRotationResult × SysState :=
  match verify_refresh_token refresh_token now with
  | .error msg => (rotate_catch msg, s)
  | .ok decoded =>
    let token_hash := hash_token refresh_token
    match find_one_by_hash s.store token_hash with
    | none =>
      (⟨false, none, some "Token reuse detected. Please login again.", some true⟩,
       ⟨update_many_by_family s.store decoded.family_id, s.next_uuid⟩)
    | some stored_token =>
      if stored_token.is_revoked then
        (⟨false, none, some "Token reuse detected. Please login again.", some true⟩,
         ⟨update_many_by_family s.store decoded.family_id, s.next_uuid⟩)
      else if stored_token.expires_at < now then
        (⟨false, none, some "Refresh token expired", some false⟩,
         ⟨update_one_by_hash s.store token_hash, s.next_uuid⟩)
      else
        let s1 : SysState := ⟨update_one_by_hash s.store token_hash, s.next_uuid⟩
        match generate_token_pair decoded.user_id decoded.device_type
            (some decoded.family_id) now s1 with
        | .ok (new_tokens, s2) => (⟨true, some new_tokens, none, none⟩, s2)
        | .error msg => (rotate_catch msg, s1)

/-- `JWTService.revoke_refresh_token` (logout): revoke the first record with
this token's fingerprint; returns whether a record was modified. -/
def revoke_refresh_token (refresh_token : JwtToken) (s : SysState) :
    Bool × SysState :=
  let token_hash := hash_token refresh_token
  let modified := match find_one_by_hash s.store token_hash with
    | none => false
    | some r => !r.is_revoked
  (modified, ⟨update_one_by_hash s.store token_hash, s.next_uuid⟩)

/-- `JWTService.revoke_all_user_tokens`. -/
def revoke_all_user_tokens (user_id : String) (s : SysState) : SysState :=
  ⟨update_many_by_user s.store user_id, s.next_uuid⟩

/-- `JWTService.revoke_token_family`. -/
def revoke_token_family (family_id : Nat) (s : SysState) : SysState :=
  ⟨update_many_by_family_unrevoked s.store family_id, s.next_uuid⟩

/-! ### Refresh coordinator (`refresh_queue.service.ts`) -/

/-- `RefreshQueueService.create_job_id`: a SHA-256 prefix of the token,
modelled (like `hash_token`) as an injective function of the token. -/
def create_job_id (refresh_token : JwtToken) : JwtToken := refresh_token

/-- A queued unit of work: the BullMQ job, keyed by `jobId`. -/
structure QueueJob where
  job_id : JwtToken
  refresh_token : JwtToken
deriving DecidableEq, Repr

/-- `queue.add("refresh", {refresh_token}, {jobId})` with BullMQ job-id
deduplication: when a job with this id already exists, no new job is
created and the caller attaches to the existing one. -/
def queue_add (jobs : List QueueJob) (refresh_token : JwtToken) : List QueueJob :=
  let job_id := create_job_id refresh_token
  if jobs.any (fun j => j.job_id = job_id) then jobs
  else jobs ++ [⟨job_id, refresh_token⟩]

/-- Simultaneous submissions: every `add` happens before any job executes. -/
def enqueue_all (tokens : List JwtToken) (jobs : List QueueJob) : List QueueJob :=
  tokens.foldl queue_add jobs

/-- `RefreshQueueService.process_refresh_job`: run the rotation protocol for
the job's token (the worker executes each queued job exactly once). -/
def process_refresh_job (job : QueueJob) (now : Nat) (s : SysState) :
    ITokenRotationResult × SysState :=
  rotate_refresh_token job.refresh_token now s

/-- The worker draining the queue: execute each distinct job once, in order,
recording each job's settled result under its job id. -/
def run_jobs (jobs : List QueueJob) (now : Nat) (s : SysState) :
    List (JwtToken × ITokenRotationResult) × SysState :=
  match jobs with
  | [] => ([], s)
  | j :: js =>
    let (r, s') := process_refresh_job j now s
    let (rs, s'') := run_jobs js now s'
    ((j.job_id, r) :: rs, s'')

/-- `job.waitUntilFinished(queueEvents, 30000)`: a caller's wait either sees
the job's settled result or times out after 30s (the timeout rejects,
landing in the `catch` of `add_refresh_job`). -/
inductive WaitOutcome
  | finished (result : ITokenRotationResult)
  | timeout
deriving DecidableEq, Repr

/-- The settled result a caller awaiting token `t` observes. -/
def await_result (completed : List (JwtToken × ITokenRotationResult))
    (refresh_token : JwtToken) : Option ITokenRotationResult :=
  (completed.find? fun p => p.1 = create_job_id refresh_token).map (·.2)

/-- `RefreshQueueService.add_refresh_job`: when the queue is unavailable,
rotate directly; otherwise enqueue (with job-id deduplication) and await the
unit's settlement; when the 30s wait rejects with a timeout, the `catch`
falls back to a direct, unsynchronized execution of the rotation protocol
against the current store. -/
def add_refresh_job (queue_available : Bool) (wait : WaitOutcome)
    (refresh_token : JwtToken) (now : Nat) (s : SysState) :
    ITokenRotationResult × SysState :=
  if queue_available = false then
    rotate_refresh_token refresh_token now s
  else
    match wait with
    | .finished result => (result, s)
    | .timeout => rotate_refresh_token refresh_token now s

/-! ### Auth middleware (`auth.middleware.ts`, dual-channel variant) -/

/-- The `Authorization` header: either `Bearer <token>` or some other raw
string (which the extraction step ignores). -/
inductive AuthHeader
  | bearer (token : JwtToken)
  | other (raw : String)
deriving DecidableEq, Repr

/-- The parts of the request `authenticate_token` reads. -/
structure AuthRequest where
  cookie_access_token : Option JwtToken
  authorization : Option AuthHeader
deriving DecidableEq, Repr

/-- A JSON error response: HTTP status, `error` and `message` fields. -/
structure ApiResponse where
  status : Nat
  error : String
  message : String
deriving DecidableEq, Repr

/-- Token extraction of `authenticate_token`: cookie first, then the
`Bearer` header; exactly one source is selected. -/
def extract_token (req : AuthRequest) : Option JwtToken :=
  match req.cookie_access_token with
  | some token => some token
  | none =>
    match req.authorization with
    | some (.bearer token) => some token
    | _ => none

/-- `authenticate_token` (dual-channel variant): extract the token, verify it
as an access token, look the user up; `.ok` is the authenticated `user_id`
attached to the request, `.error` the JSON rejection actually sent. The
`catch` matches the thrown message case-sensitively against `"expired"` and
`"invalid"`. -/
def authenticate_token (req : AuthRequest) (now : Nat) (users : List String) :
    Except ApiResponse String :=
  match extract_token req with
  | none =>
    .error ⟨401, "Token de acceso requerido",
      "Debes incluir un token de autorización (cookie o header)"⟩
  | some token =>
    match verify_access_token token now with
    | .error msg =>
      if string_includes msg "expired" then
        .error ⟨401, "Token expirado",
          "El token de acceso ha expirado. Refrescá tu sesión."⟩
      else if string_includes msg "invalid" then
        .error ⟨401, "Token inválido", "El token de acceso no es válido"⟩
      else
        .error ⟨401, "Error de autenticación", msg⟩
    | .ok decoded =>
      if users.contains decoded.user_id then .ok decoded.user_id
      else
        .error ⟨401, "Usuario no encontrado",
          "El usuario no existe en nuestra base de datos"⟩

/-! ### The operations mutating the token store (for the lifecycle invariant) -/

/-- Every store-mutating operation of the authentication engine. -/
inductive Operation
  | generate (user_id : String) (device_type : e_device_type) (family_id : Option Nat)
  | rotate (refresh_token : JwtToken)
  | revoke (refresh_token : JwtToken)
  | revoke_all_user (user_id : String)
  | revoke_family (family_id : Nat)

/-- State effect of one operation at instant `now`. -/
def apply_op (op : Operation) (now : Nat) (s : SysState) : SysState :=
  match op with
  | .generate user_id device_type family_id =>
    match generate_token_pair user_id device_type family_id now s with
    | .ok (_, s') => s'
    | .error _ => s
  | .rotate refresh_token => (rotate_refresh_token refresh_token now s).2
  | .revoke refresh_token => (revoke_refresh_token refresh_token s).2
  | .revoke_all_user user_id => revoke_all_user_tokens user_id s
  | .revoke_family family_id => revoke_token_family family_id s

/-- Iterated presentation of the same refresh token: the list of results
(and the final state) of calling `rotate_refresh_token` on `t` once per
instant in `times`, threading the store state. -/
def rotate_results (t : JwtToken) : List Nat → SysState →
    List ITokenRotationResult × SysState
  | [], s => ([], s)
  | m :: ms, s =>
    let step := rotate_refresh_token t m s
    let rest := rotate_results t ms step.2
    (step.1 :: rest.1, rest.2)

/-- A store is reuse-ready for a fingerprint when the record `findOne` returns
for it (if any) is already revoked: exactly the condition of the theft branch. -/
def reuse_ready (st : Store) (h : JwtToken) : Prop :=
  ∀ rec, find_one_by_hash st h = some rec → rec.is_revoked = true

/-- Lifecycle evolution of a single record: every field other than
`is_revoked` is unchanged, and `is_revoked` never returns from true to false. -/
def record_evolves (r r' : RefreshTokenRecord) : Prop :=
  r'.user_id = r.user_id ∧ r'.token_hash = r.token_hash ∧
  r'.family_id = r.family_id ∧ r'.device_type = r.device_type ∧
  r'.expires_at = r.expires_at ∧ r'.created_at = r.created_at ∧
  (r.is_revoked = true → r'.is_revoked = true)

/-- Lifecycle evolution of the whole store: no record is removed, every
pre-existing record (by position) evolves per `record_evolves`. -/
def store_evolves (st st' : Store) : Prop :=
  st.length ≤ st'.length ∧
  ∀ (i : Nat) (r r' : RefreshTokenRecord),
    st[i]? = some r → st'[i]? = some r' → record_evolves r r'

/-! ### Concrete instances used to exercise the claims -/

/-- A refresh token of family 1, signed at 0, JWT expiry instant 100. -/
def c1_token : JwtToken := ⟨.refresh "u1" 1 .web, JWT_REFRESH_SECRET, 0, 100⟩

/-- A store holding the live record of `c1_token`. -/
def c1_state : SysState := ⟨[⟨"u1", c1_token, 1, .web, 100, 0, false⟩], 50⟩

/-- A refresh token of family 7 whose record is already revoked. -/
def c2_token : JwtToken := ⟨.refresh "u2" 7 .web, JWT_REFRESH_SECRET, 0, 100⟩

/-- A still-live sibling token of the same family 7. -/
def c2_sibling : JwtToken := ⟨.refresh "u2" 7 .web, JWT_REFRESH_SECRET, 1, 1000⟩

/-- Store holding the revoked record of `c2_token` and the live, unexpired
record of its sibling. -/
def c2_state : SysState :=
  ⟨[⟨"u2", c2_token, 7, .web, 1000, 0, true⟩,
    ⟨"u2", c2_sibling, 7, .web, 1000, 1, false⟩], 9⟩

/-- A live refresh token of family 3. -/
def c3_token : JwtToken := ⟨.refresh "u3" 3 .mobile, JWT_REFRESH_SECRET, 0, 100⟩

/-- Record of `c3_token`: present, unrevoked, unexpired. -/
def c3_record : RefreshTokenRecord := ⟨"u3", c3_token, 3, .mobile, 100, 0, false⟩

/-- Store for the coordinator scenario. -/
def c3_state : SysState := ⟨[c3_record], 11⟩

/-- A live refresh token of family 4. -/
def c4_token : JwtToken := ⟨.refresh "u4" 4 .web, JWT_REFRESH_SECRET, 0, 100⟩

/-- Store holding the live record of `c4_token`. -/
def c4_state0 : SysState := ⟨[⟨"u4", c4_token, 4, .web, 100, 0, false⟩], 20⟩

/-- Store after the in-flight unit completed the rotation of `c4_token`:
its record is consumed and a successor record of the same family exists. -/
def c4_state1 : SysState := (rotate_refresh_token c4_token 10 c4_state0).2

/-- A refresh token of family 5 whose stored record is expired. -/
def c5_token : JwtToken := ⟨.refresh "u5" 5 .web, JWT_REFRESH_SECRET, 0, 100⟩

/-- The expired (at instant 10), unrevoked record of `c5_token`. -/
def c5_record : RefreshTokenRecord := ⟨"u5", c5_token, 5, .web, 5, 0, false⟩

/-- A live sibling token of family 5. -/
def c5_sibling : JwtToken := ⟨.refresh "u5" 5 .web, JWT_REFRESH_SECRET, 1, 1000⟩

/-- Store holding the expired record of `c5_token` and a live sibling record
of the same family. -/
def c5_state : SysState :=
  ⟨[c5_record, ⟨"u5", c5_sibling, 5, .web, 1000, 1, false⟩], 13⟩

/-- A token signed with a wrong secret: its signature does not verify. -/
def c6_bad_token : JwtToken := ⟨.refresh "u6" 6 .web, "wrong-secret", 0, 100⟩

/-- A genuine refresh token that is already past its JWT expiry at 200. -/
def c6_expired_token : JwtToken := ⟨.refresh "u6" 6 .web, JWT_REFRESH_SECRET, 0, 100⟩

/-- A non-empty store used to observe that verification failures leave the
store untouched. -/
def c6_state : SysState := ⟨[⟨"u6", c6_expired_token, 6, .web, 100, 0, false⟩], 17⟩

/-- An access token expired at instant 10 (JWT expiry instant 9). -/
def c8_cookie : JwtToken := ⟨.access "u8", JWT_SECRET, 0, 9⟩

/-- Store used to exercise the lifecycle invariant. -/
def c9_state : SysState :=
  ⟨[⟨"u9", ⟨.refresh "u9" 8 .web, JWT_REFRESH_SECRET, 0, 100⟩, 8, .web, 100, 0, false⟩,
    ⟨"u9", ⟨.refresh "u9" 8 .web, JWT_REFRESH_SECRET, 1, 1000⟩, 8, .web, 1000, 1, true⟩], 31⟩

/-- A token for the totality claim: wrong secret, so verification fails. -/
def c10_token : JwtToken := ⟨.access "u10", "garbage", 0, 0⟩

/-- Store used to exercise the totality claim. -/
def c10_state : SysState := ⟨[], 1⟩

/-! ### Helper lemmas -/

theorem expiry_access_eval : expiry_duration_ms JWT_ACCESS_EXPIRY = some 900000 := by
  decide

theorem expiry_web_eval :
    expiry_duration_ms JWT_REFRESH_EXPIRY_WEB = some 604800000 := by
  decide

theorem expiry_mobile_eval :
    expiry_duration_ms JWT_REFRESH_EXPIRY_MOBILE = some 7776000000 := by
  decide

theorem verify_access_ok_of (t : JwtToken) (now : Nat) (u : String)
    (h1 : t.secret = JWT_SECRET) (h2 : now < t.exp) (h3 : t.payload = .access u) :
    verify_access_token t now = .ok ⟨u⟩ := by
  have h2' : ¬ t.exp ≤ now := Nat.not_le.mpr h2
  unfold verify_access_token jwt_verify
  rw [h1, h3]
  simp [h2']

theorem verify_refresh_ok_of (t : JwtToken) (now : Nat) (u : String) (f : Nat)
    (dt : e_device_type) (h1 : t.secret = JWT_REFRESH_SECRET) (h2 : now < t.exp)
    (h3 : t.payload = .refresh u f dt) :
    verify_refresh_token t now = .ok ⟨u, f, dt⟩ := by
  have h2' : ¬ t.exp ≤ now := Nat.not_le.mpr h2
  unfold verify_refresh_token jwt_verify
  rw [h1, h3]
  simp [h2']

theorem verify_refresh_ok_inv (t : JwtToken) (now : Nat) (d : IRefreshTokenPayload)
    (h : verify_refresh_token t now = .ok d) :
    t.secret = JWT_REFRESH_SECRET ∧ now < t.exp ∧
      t.payload = .refresh d.user_id d.family_id d.device_type := by
  unfold verify_refresh_token jwt_verify at h
  by_cases h1 : t.secret = JWT_REFRESH_SECRET
  · by_cases h2 : t.exp ≤ now
    · simp [h1, h2] at h
    · cases tp : t.payload with
      | access u => simp [h1, h2, tp] at h
      | refresh u f dt =>
        simp [h1, h2, tp] at h
        subst h
        exact ⟨h1, Nat.not_le.mp h2, by simp [tp]⟩
  · simp [h1] at h

theorem verify_refresh_error_cases (t : JwtToken) (now : Nat) (msg : String)
    (h : verify_refresh_token t now = .error msg) :
    msg = "Refresh token expired" ∨ msg = "Invalid refresh token" ∨
      msg = "Invalid token type" := by
  unfold verify_refresh_token jwt_verify at h
  by_cases h1 : t.secret = JWT_REFRESH_SECRET
  · by_cases h2 : t.exp ≤ now
    · simp [h1, h2] at h
      exact .inl h.symm
    · cases tp : t.payload with
      | access u =>
        simp [h1, h2, tp] at h
        exact .inr (.inr h.symm)
      | refresh u f dt => simp [h1, h2, tp] at h
  · simp [h1] at h
    exact .inr (.inl h.symm)

theorem rotate_catch_eval (msg : String)
    (hmsg : msg = "Refresh token expired" ∨ msg = "Invalid refresh token" ∨
      msg = "Invalid token type" ∨ msg = "Failed to generate authentication tokens") :
    rotate_catch msg =
      ⟨false, none,
        some (if msg = "Refresh token expired" then "Refresh token expired"
              else "Failed to refresh token"), some false⟩ := by
  rcases hmsg with h | h | h | h <;> subst h <;> decide

theorem rotate_catch_shape (msg : String) :
    ∃ m, rotate_catch msg = ⟨false, none, some m, some false⟩ ∧ m ≠ "" := by
  unfold rotate_catch
  by_cases h : (string_includes msg "expired" || string_includes msg "invalid") = true
  · refine ⟨msg, by rw [if_pos h], ?_⟩
    intro he
    subst he
    revert h
    decide
  · refine ⟨"Failed to refresh token", by rw [if_neg h], by decide⟩

theorem find_one_update_one (st : Store) (h : JwtToken) :
    find_one_by_hash (update_one_by_hash st h) h =
      (find_one_by_hash st h).map (fun r => { r with is_revoked := true }) := by
  induction st with
  | nil => rfl
  | cons r rs ih =>
    by_cases hr : r.token_hash = h <;>
      simp [find_one_by_hash, update_one_by_hash, hr, ih]

theorem find_one_append (st l : Store) (h : JwtToken) :
    find_one_by_hash (st ++ l) h =
      (find_one_by_hash st h).orElse (fun _ => find_one_by_hash l h) := by
  induction st with
  | nil => rfl
  | cons r rs ih =>
    by_cases hr : r.token_hash = h <;> simp [find_one_by_hash, hr, ih]

theorem find_one_map (g : RefreshTokenRecord → RefreshTokenRecord)
    (hg : ∀ r, (g r).token_hash = r.token_hash) (st : Store) (h : JwtToken) :
    find_one_by_hash (st.map g) h = (find_one_by_hash st h).map g := by
  induction st with
  | nil => rfl
  | cons r rs ih =>
    by_cases hr : r.token_hash = h <;> simp [find_one_by_hash, hg, hr, ih]

theorem rotate_reuse_of_ready (t : JwtToken) (d : IRefreshTokenPayload) (now : Nat)
    (s : SysState) (hv : verify_refresh_token t now = .ok d)
    (hready : reuse_ready s.store (hash_token t)) :
    rotate_refresh_token t now s =
      (⟨false, none, some "Token reuse detected. Please login again.", some true⟩,
       ⟨update_many_by_family s.store d.family_id, s.next_uuid⟩) := by
  unfold rotate_refresh_token
  cases hf : find_one_by_hash s.store (hash_token t) with
  | none => simp only [hv, hf]
  | some rec => simp only [hv, hf, if_pos (hready rec hf)]

theorem rotate_success_store (t : JwtToken) (d : IRefreshTokenPayload)
    (rec : RefreshTokenRecord) (now : Nat) (s : SysState)
    (hv : verify_refresh_token t now = .ok d)
    (hf : find_one_by_hash s.store (hash_token t) = some rec)
    (hrev : rec.is_revoked = false) (hexp : ¬ rec.expires_at < now) :
    ∃ pair x,
      rotate_refresh_token t now s =
        (⟨true, some pair, none, none⟩,
         ⟨update_one_by_hash s.store (hash_token t) ++ [x], s.next_uuid⟩) := by
  have hrev' : ¬ rec.is_revoked = true := by simp [hrev]
  unfold rotate_refresh_token
  simp only [hv, hf, if_neg hrev', if_neg hexp]
  cases hdt : d.device_type <;>
    · simp only [generate_token_pair, expiry_access_eval, expiry_web_eval,
        expiry_mobile_eval]
      exact ⟨_, _, rfl⟩

theorem rotate_success_inv (t : JwtToken) (now : Nat) (s : SysState)
    (h : (rotate_refresh_token t now s).1.success = true) :
    ∃ d rec, verify_refresh_token t now = .ok d ∧
      find_one_by_hash s.store (hash_token t) = some rec ∧
      rec.is_revoked = false ∧ ¬ rec.expires_at < now := by
  unfold rotate_refresh_token at h
  cases hv : verify_refresh_token t now with
  | error msg =>
    obtain ⟨m, hm, -⟩ := rotate_catch_shape msg
    simp only [hv, hm] at h
    simp at h
  | ok d =>
    simp only [hv] at h
    cases hf : find_one_by_hash s.store (hash_token t) with
    | none => simp only [hf] at h; simp at h
    | some rec =>
      simp only [hf] at h
      by_cases hrev : rec.is_revoked = true
      · simp only [if_pos hrev] at h; simp at h
      · simp only [if_neg hrev] at h
        by_cases hexp : rec.expires_at < now
        · simp only [if_pos hexp] at h; simp at h
        · exact ⟨d, rec, rfl, rfl, by simpa using hrev, hexp⟩

theorem reuse_ready_update_many_family (st : Store) (h : JwtToken) (fid : Nat)
    (hready : reuse_ready st h) :
    reuse_ready (update_many_by_family st fid) h := by
  intro rec hrec
  unfold update_many_by_family at hrec
  rw [find_one_map _ (fun r => by split <;> rfl)] at hrec
  cases hf : find_one_by_hash st h with
  | none => rw [hf] at hrec; cases hrec
  | some r =>
    rw [hf] at hrec
    have hr := hready r hf
    simp only [Option.map_some'] at hrec
    cases hrec
    split <;> simp [hr]

theorem reuse_ready_after_success (t : JwtToken) (now : Nat) (s : SysState)
    (h : (rotate_refresh_token t now s).1.success = true) :
    reuse_ready (rotate_refresh_token t now s).2.store (hash_token t) := by
  obtain ⟨d, rec, hv, hf, hrev, hexp⟩ := rotate_success_inv t now s h
  obtain ⟨pair, x, heq⟩ := rotate_success_store t d rec now s hv hf hrev hexp
  rw [heq]
  intro r hr
  rw [find_one_append, find_one_update_one, hf] at hr
  have hr' : some ({ rec with is_revoked := true } : RefreshTokenRecord) = some r := hr
  cases hr'
  rfl

theorem rotate_results_reuse (t : JwtToken) (u : String) (f : Nat)
    (dt : e_device_type) (h1 : t.secret = JWT_REFRESH_SECRET)
    (h3 : t.payload = .refresh u f dt) (times : List Nat) :
    ∀ s : SysState, (∀ m ∈ times, m < t.exp) → reuse_ready s.store (hash_token t) →
      (rotate_results t times s).1.all
        (fun r => decide (r =
          ⟨false, none, some "Token reuse detected. Please login again.",
            some true⟩)) = true := by
  induction times with
  | nil => intro s _ _; rfl
  | cons m ms ih =>
    intro s htimes hready
    have hm : m < t.exp := htimes m (List.mem_cons_self m ms)
    have hv := verify_refresh_ok_of t m u f dt h1 hm h3
    have heq := rotate_reuse_of_ready t ⟨u, f, dt⟩ m s hv hready
    simp only [rotate_results, heq, List.all_cons, decide_eq_true_eq,
      Bool.and_eq_true]
    exact ⟨trivial, ih _ (fun k hk => htimes k (List.mem_cons_of_mem m hk))
      (reuse_ready_update_many_family s.store (hash_token t) f hready)⟩

theorem store_evolves_refl (st : Store) : store_evolves st st := by
  refine ⟨le_rfl, fun i r r' h1 h2 => ?_⟩
  rw [h1] at h2
  cases h2
  exact ⟨rfl, rfl, rfl, rfl, rfl, rfl, fun h => h⟩

theorem store_evolves_trans (s1 s2 s3 : Store) (h12 : store_evolves s1 s2)
    (h23 : store_evolves s2 s3) : store_evolves s1 s3 := by
  obtain ⟨hl12, hr12⟩ := h12
  obtain ⟨hl23, hr23⟩ := h23
  refine ⟨le_trans hl12 hl23, fun i r r' h1 h3 => ?_⟩
  have hi : i < s2.length := by
    have : i < s1.length := (List.getElem?_eq_some.mp h1).1
    omega
  have h2 : s2[i]? = some s2[i] := List.getElem?_eq_getElem hi
  obtain ⟨e1, e2, e3, e4, e5, e6, e7⟩ := hr12 i r s2[i] h1 h2
  obtain ⟨f1, f2, f3, f4, f5, f6, f7⟩ := hr23 i s2[i] r' h2 h3
  exact ⟨f1.trans e1, f2.trans e2, f3.trans e3, f4.trans e4, f5.trans e5,
    f6.trans e6, fun h => f7 (e7 h)⟩

theorem store_evolves_map (g : RefreshTokenRecord → RefreshTokenRecord)
    (hg : ∀ r, record_evolves r (g r)) (st : Store) :
    store_evolves st (st.map g) := by
  refine ⟨by simp, fun i r r' h1 h2 => ?_⟩
  rw [List.getElem?_map, h1] at h2
  simp only [Option.map_some'] at h2
  cases h2
  exact hg r

theorem store_evolves_append (st l : Store) : store_evolves st (st ++ l) := by
  refine ⟨by simp, fun i r r' h1 h2 => ?_⟩
  have hi : i < st.length := (List.getElem?_eq_some.mp h1).1
  rw [List.getElem?_append_left hi, h1] at h2
  cases h2
  exact ⟨rfl, rfl, rfl, rfl, rfl, rfl, fun h => h⟩

theorem store_evolves_cons (r r' : RefreshTokenRecord) (rs rs' : Store)
    (hr : record_evolves r r') (hrs : store_evolves rs rs') :
    store_evolves (r :: rs) (r' :: rs') := by
  refine ⟨by simpa using hrs.1, fun i a b h1 h2 => ?_⟩
  cases i with
  | zero =>
    simp only [List.getElem?_cons_zero] at h1 h2
    cases h1
    cases h2
    exact hr
  | succ j =>
    simp only [List.getElem?_cons_succ] at h1 h2
    exact hrs.2 j a b h1 h2

theorem store_evolves_update_one (st : Store) (h : JwtToken) :
    store_evolves st (update_one_by_hash st h) := by
  induction st with
  | nil => exact store_evolves_refl []
  | cons r rs ih =>
    by_cases hr : r.token_hash = h
    · rw [update_one_by_hash, if_pos hr]
      exact store_evolves_cons _ _ _ _
        ⟨rfl, rfl, rfl, rfl, rfl, rfl, fun _ => rfl⟩ (store_evolves_refl rs)
    · rw [update_one_by_hash, if_neg hr]
      exact store_evolves_cons _ _ _ _
        ⟨rfl, rfl, rfl, rfl, rfl, rfl, fun h => h⟩ ih

theorem record_evolves_revoke_if (p : Prop) [Decidable p] (r : RefreshTokenRecord) :
    record_evolves r (if p then { r with is_revoked := true } else r) := by
  split
  · exact ⟨rfl, rfl, rfl, rfl, rfl, rfl, fun _ => rfl⟩
  · exact ⟨rfl, rfl, rfl, rfl, rfl, rfl, fun h => h⟩

theorem generate_store_shape (u : String) (dt : e_device_type) (fid : Option Nat)
    (now : Nat) (s : SysState) (pair : ITokenPair) (s2 : SysState)
    (h : generate_token_pair u dt fid now s = .ok (pair, s2)) :
    ∃ rec, s2.store = s.store ++ [rec] := by
  unfold generate_token_pair at h
  cases dt <;>
    · simp only [expiry_access_eval, expiry_web_eval, expiry_mobile_eval,
        Except.ok.injEq, Prod.mk.injEq] at h
      exact ⟨_, by rw [← h.2]⟩

theorem rotate_store_evolves (t : JwtToken) (now : Nat) (s : SysState) :
    store_evolves s.store (rotate_refresh_token t now s).2.store := by
  unfold rotate_refresh_token
  cases hv : verify_refresh_token t now with
  | error msg =>
    simp only [hv]
    exact store_evolves_refl s.store
  | ok d =>
    simp only [hv]
    cases hf : find_one_by_hash s.store (hash_token t) with
    | none =>
      simp only [hf]
      exact store_evolves_map _ (fun r => record_evolves_revoke_if _ r) s.store
    | some rec =>
      simp only [hf]
      by_cases hrev : rec.is_revoked = true
      · simp only [if_pos hrev]
        exact store_evolves_map _ (fun r => record_evolves_revoke_if _ r) s.store
      · simp only [if_neg hrev]
        by_cases hexp : rec.expires_at < now
        · simp only [if_pos hexp]
          exact store_evolves_update_one s.store (hash_token t)
        · simp only [if_neg hexp]
          cases hg : generate_token_pair d.user_id d.device_type (some d.family_id)
              now ⟨update_one_by_hash s.store (hash_token t), s.next_uuid⟩ with
          | ok res =>
            obtain ⟨rec2, hrec2⟩ := generate_store_shape _ _ _ _ _ res.1 res.2 (by rw [hg])
            simp only [hg]
            refine store_evolves_trans _ (update_one_by_hash s.store (hash_token t)) _
              (store_evolves_update_one s.store (hash_token t)) ?_
            rw [hrec2]
            exact store_evolves_append _ _
          | error msg =>
            simp only [hg]
            exact store_evolves_update_one s.store (hash_token t)

theorem queue_add_nil (t : JwtToken) :
    queue_add [] t = [⟨create_job_id t, t⟩] := by
  simp [queue_add]

theorem queue_add_dedup (t : JwtToken) :
    queue_add [⟨create_job_id t, t⟩] t = [⟨create_job_id t, t⟩] := by
  simp [queue_add]

theorem enqueue_all_replicate_dedup (k : Nat) (t : JwtToken) :
    enqueue_all (List.replicate k t) [⟨create_job_id t, t⟩] =
      [⟨create_job_id t, t⟩] := by
  induction k with
  | zero => rfl
  | succ n ih =>
    rw [List.replicate_succ]
    show enqueue_all (List.replicate n t) (queue_add [⟨create_job_id t, t⟩] t) = _
    rw [queue_add_dedup]
    exact ih

theorem enqueue_all_replicate (n : Nat) (hn : 0 < n) (t : JwtToken) :
    enqueue_all (List.replicate n t) [] = [⟨create_job_id t, t⟩] := by
  cases n with
  | zero => exact absurd hn (by simp)
  | succ k =>
    rw [List.replicate_succ]
    show enqueue_all (List.replicate k t) (queue_add [] t) = _
    rw [queue_add_nil]
    exact enqueue_all_replicate_dedup k t

theorem run_jobs_single (j : QueueJob) (now : Nat) (s : SysState) :
    run_jobs [j] now s =
      ([(j.job_id, (rotate_refresh_token j.refresh_token now s).1)],
       (rotate_refresh_token j.refresh_token now s).2) := by
  simp [run_jobs, process_refresh_job]

theorem await_result_single (t : JwtToken) (r : ITokenRotationResult) :
    await_result [(create_job_id t, r)] t = some r := by
  simp [await_result]

theorem find_one_index (st : Store) (h : JwtToken) (rec : RefreshTokenRecord)
    (hf : find_one_by_hash st h = some rec) :
    ∃ i, ∃ hi : i < st.length, st.get ⟨i, hi⟩ = rec ∧
      update_one_by_hash st h = st.set i { rec with is_revoked := true } := by
  induction st with
  | nil => cases hf
  | cons a as ih =>
    by_cases ha : a.token_hash = h
    · rw [find_one_by_hash, if_pos ha] at hf
      cases hf
      exact ⟨0, by simp, rfl, by rw [update_one_by_hash, if_pos ha]; rfl⟩
    · rw [find_one_by_hash, if_neg ha] at hf
      obtain ⟨i, hi, hget, hupd⟩ := ih hf
      refine ⟨i + 1, by simpa using hi, by simpa using hget, ?_⟩
      rw [update_one_by_hash, if_neg ha, hupd]
      rfl

theorem update_many_by_family_revokes (st : Store) (fid : Nat) :
    (update_many_by_family st fid).all
      (fun r => if r.family_id = fid then r.is_revoked else true) = true := by
  rw [update_many_by_family, List.all_eq_true]
  intro r hr
  rw [List.mem_map] at hr
  obtain ⟨a, -, rfl⟩ := hr
  by_cases hfam : a.family_id = fid <;> simp [hfam]

/-! ### The claims -/

/-- C1 (as stated, refuted): a successful `rotate_refresh_token(t)` does NOT
make literally every later `rotate_refresh_token(t)` return the reuse
failure — a call made after the token's own JWT expiry instant returns the
`Refresh token expired` failure (produced at verification, before the store
is consulted), not the reuse-detection failure. Concretely: rotation of
`c1_token` at 10 succeeds, and re-presenting the same token at 150 (past its
JWT expiry 100) yields the expiry failure with `should_logout` unset. -/
theorem C1_counterexample :
    (rotate_refresh_token c1_token 10 c1_state).1.success = true ∧
    (rotate_refresh_token c1_token 150
        (rotate_refresh_token c1_token 10 c1_state).2).1 =
      ⟨false, none, some "Refresh token expired", some false⟩ ∧
    (rotate_refresh_token c1_token 150
        (rotate_refresh_token c1_token 10 c1_state).2).1.should_logout ≠
      some true := by
  decide

/-- C1 (amended): once `rotate_refresh_token(t)` has returned success, every
subsequent call `rotate_refresh_token(t)` — at any instants that lie before
the token's own JWT expiry, however many times it is repeated — returns the
reuse-detection failure (`should_logout = true`), never a fresh validation or
expiry error. -/
theorem C1_rotate_at_most_once (t : JwtToken) (now : Nat) (s : SysState)
    (times : List Nat)
    (hsucc : (rotate_refresh_token t now s).1.success = true)
    (htimes : ∀ m ∈ times, m < t.exp) :
    (rotate_results t times (rotate_refresh_token t now s).2).1.all
      (fun r => decide (r = ⟨false, none,
        some "Token reuse detected. Please login again.", some true⟩)) = true := by
  obtain ⟨d, rec, hv, hf, hrev, hexp⟩ := rotate_success_inv t now s hsucc
  obtain ⟨h1, h2, h3⟩ := verify_refresh_ok_inv t now d hv
  exact rotate_results_reuse t d.user_id d.family_id d.device_type h1 h3 times _
    htimes (reuse_ready_after_success t now s hsucc)

/-- Witness for C1: three repeated re-presentations of `c1_token` before its
JWT expiry all return the reuse-detection failure. -/
theorem C1_witness :
    (rotate_results c1_token [20, 30, 40]
        (rotate_refresh_token c1_token 10 c1_state).2).1.all
      (fun r => decide (r = ⟨false, none,
        some "Token reuse detected. Please login again.", some true⟩)) = true :=
  C1_rotate_at_most_once c1_token 10 c1_state [20, 30, 40] (by decide) (by decide)

/-- C2: when the presented token verifies but its fingerprint is absent or its
stored record is already revoked, `rotate_refresh_token` revokes every record
of the token's `family_id` (the whole store satisfies: any record of that
family is revoked, including previously live siblings) and returns the
reuse-detection failure with `should_logout = true`. -/
theorem C2_reuse_revokes_family (t : JwtToken) (d : IRefreshTokenPayload)
    (now : Nat) (s : SysState)
    (hv : verify_refresh_token t now = .ok d)
    (hready : reuse_ready s.store (hash_token t)) :
    rotate_refresh_token t now s =
      (⟨false, none, some "Token reuse detected. Please login again.", some true⟩,
       ⟨update_many_by_family s.store d.family_id, s.next_uuid⟩) ∧
    (rotate_refresh_token t now s).2.store.all
      (fun r => if r.family_id = d.family_id then r.is_revoked else true) = true := by
  have heq := rotate_reuse_of_ready t d now s hv hready
  refine ⟨heq, ?_⟩
  rw [heq]
  exact update_many_by_family_revokes s.store d.family_id

/-- Witness for C2: `c2_token` verifies at 10 but its record is revoked; the
rotation returns the reuse failure and the live sibling record of family 7
is revoked as well. -/
theorem C2_witness :
    rotate_refresh_token c2_token 10 c2_state =
      (⟨false, none, some "Token reuse detected. Please login again.", some true⟩,
       ⟨update_many_by_family c2_state.store 7, c2_state.next_uuid⟩) ∧
    (rotate_refresh_token c2_token 10 c2_state).2.store.all
      (fun r => if r.family_id = 7 then r.is_revoked else true) = true :=
  C2_reuse_revokes_family c2_token ⟨"u2", 7, .web⟩ 10 c2_state rfl
    (fun rec h => by
      rw [show find_one_by_hash c2_state.store (hash_token c2_token) =
            some ⟨"u2", c2_token, 7, .web, 1000, 0, true⟩ from by decide] at h
      cases h
      rfl)

/-- C3: N simultaneous submissions of the identical refresh token through the
coordinator deduplicate (by job id) to a single queued unit; the worker
executes the rotation protocol exactly once (the final store state is that of
one `rotate_refresh_token` run); every caller awaiting that token observes
that single execution's result; and — for a live token — that shared result
is the one success, not N−1 independent reuse errors. -/
theorem C3_coordinator_dedup (n : Nat) (t : JwtToken) (d : IRefreshTokenPayload)
    (rec : RefreshTokenRecord) (now : Nat) (s : SysState) (hn : 0 < n)
    (hv : verify_refresh_token t now = .ok d)
    (hf : find_one_by_hash s.store (hash_token t) = some rec)
    (hrev : rec.is_revoked = false) (hexp : ¬ rec.expires_at < now) :
    (enqueue_all (List.replicate n t) []).length = 1 ∧
    (run_jobs (enqueue_all (List.replicate n t) []) now s).2 =
      (rotate_refresh_token t now s).2 ∧
    await_result (run_jobs (enqueue_all (List.replicate n t) []) now s).1 t =
      some (rotate_refresh_token t now s).1 ∧
    (rotate_refresh_token t now s).1.success = true := by
  rw [enqueue_all_replicate n hn t, run_jobs_single]
  obtain ⟨pair, x, heq⟩ := rotate_success_store t d rec now s hv hf hrev hexp
  refine ⟨rfl, rfl, await_result_single t _, ?_⟩
  rw [heq]

/-- Witness for C3: three simultaneous submissions of `c3_token` yield one
queued unit, one rotation execution, and the shared success result. -/
theorem C3_witness :
    (enqueue_all (List.replicate 3 c3_token) []).length = 1 ∧
    (run_jobs (enqueue_all (List.replicate 3 c3_token) []) 10 c3_state).2 =
      (rotate_refresh_token c3_token 10 c3_state).2 ∧
    await_result (run_jobs (enqueue_all (List.replicate 3 c3_token) []) 10
      c3_state).1 c3_token = some (rotate_refresh_token c3_token 10 c3_state).1 ∧
    (rotate_refresh_token c3_token 10 c3_state).1.success = true :=
  C3_coordinator_dedup 3 c3_token ⟨"u3", 3, .mobile⟩ c3_record 10 c3_state
    (by decide) rfl (by decide) (by decide) (by decide)

/-- C4 (as stated, refuted): a caller whose 30s wait times out does NOT merely
fail with a transient `QueueTimeout`: the `catch` of `add_refresh_job` falls
back to a direct execution of the rotation protocol. Concretely, with the
in-flight unit already having completed the rotation of `c4_token`
(state `c4_state1`), the timed-out caller's fallback re-runs the protocol:
it returns the reuse-detection protocol failure (`should_logout = true`,
demanding full logout — not a retry-safe failure) and mutates the store
beyond the in-flight unit's finalized state (the successor record's family is
cascaded to revoked). -/
theorem C4_counterexample :
    (add_refresh_job true .timeout c4_token 10 c4_state1).1.should_logout =
      some true ∧
    (add_refresh_job true .timeout c4_token 10 c4_state1).1.error =
      some "Token reuse detected. Please login again." ∧
    (add_refresh_job true .timeout c4_token 10 c4_state1).2 ≠ c4_state1 := by
  decide

/-- C4 (amended): when the bounded wait elapses, the caller's timeout abandons
only its own wait (the in-flight unit is not cancelled), but the `catch`
falls back to a direct, additional execution of the rotation protocol
against the current store instead of surfacing a `QueueTimeout` failure: if
the in-flight unit already consumed the token (its record is revoked), the
fallback detects reuse, revokes the token's whole family in the store, and
returns the reuse failure with `should_logout = true`. -/
theorem C4_timeout_direct_fallback (t : JwtToken) (d : IRefreshTokenPayload)
    (now : Nat) (s : SysState) (hv : verify_refresh_token t now = .ok d)
    (hready : reuse_ready s.store (hash_token t)) :
    add_refresh_job true .timeout t now s =
      (⟨false, none, some "Token reuse detected. Please login again.", some true⟩,
       ⟨update_many_by_family s.store d.family_id, s.next_uuid⟩) := by
  show rotate_refresh_token t now s = _
  exact rotate_reuse_of_ready t d now s hv hready

/-- Witness for C4 (amended): the timed-out caller of `c4_token` against
`c4_state1` gets the reuse failure while the family is revoked. -/
theorem C4_witness :
    add_refresh_job true .timeout c4_token 10 c4_state1 =
      (⟨false, none, some "Token reuse detected. Please login again.", some true⟩,
       ⟨update_many_by_family c4_state1.store 4, c4_state1.next_uuid⟩) :=
  C4_timeout_direct_fallback c4_token ⟨"u4", 4, .web⟩ 10 c4_state1 rfl
    (fun rec h => by
      rw [show find_one_by_hash c4_state1.store (hash_token c4_token) =
            some ⟨"u4", c4_token, 4, .web, 100, 0, true⟩ from by decide] at h
      cases h
      rfl)

/-- C5: a verified token whose record is present, unrevoked, but past its
stored `expires_at` gets exactly that one record revoked (the store is the
old store with position `i` — the record `findOne` returned — revoked, every
other position unchanged, so no family-wide cascade), and the call returns
the `Refresh token expired` failure with `should_logout = false`. -/
theorem C5_expired_revokes_only_itself (t : JwtToken) (d : IRefreshTokenPayload)
    (rec : RefreshTokenRecord) (now : Nat) (s : SysState)
    (hv : verify_refresh_token t now = .ok d)
    (hf : find_one_by_hash s.store (hash_token t) = some rec)
    (hrev : rec.is_revoked = false) (hexp : rec.expires_at < now) :
    (rotate_refresh_token t now s).1 =
      ⟨false, none, some "Refresh token expired", some false⟩ ∧
    (rotate_refresh_token t now s).2.next_uuid = s.next_uuid ∧
    ∃ i, ∃ hi : i < s.store.length,
      s.store.get ⟨i, hi⟩ = rec ∧
      (rotate_refresh_token t now s).2.store =
        s.store.set i { rec with is_revoked := true } ∧
      ∀ j, j ≠ i → (rotate_refresh_token t now s).2.store[j]? = s.store[j]? := by
  have hrev' : ¬ rec.is_revoked = true := by simp [hrev]
  have heq : rotate_refresh_token t now s =
      (⟨false, none, some "Refresh token expired", some false⟩,
       ⟨update_one_by_hash s.store (hash_token t), s.next_uuid⟩) := by
    unfold rotate_refresh_token
    simp only [hv, hf, if_neg hrev', if_pos hexp]
  obtain ⟨i, hi, hget, hupd⟩ := find_one_index s.store (hash_token t) rec hf
  refine ⟨by rw [heq], by rw [heq], i, hi, hget, ?_, ?_⟩
  · rw [heq, hupd]
  · intro j hj
    rw [heq, hupd]
    exact List.getElem?_set_ne (fun h => hj h.symm)

/-- Witness for C5: rotating the expired `c5_token` at 10 revokes only its own
record (position 0); the live family-5 sibling at position 1 is untouched. -/
theorem C5_witness :
    (rotate_refresh_token c5_token 10 c5_state).1 =
      ⟨false, none, some "Refresh token expired", some false⟩ ∧
    (rotate_refresh_token c5_token 10 c5_state).2.next_uuid =
      c5_state.next_uuid ∧
    ∃ i, ∃ hi : i < c5_state.store.length,
      c5_state.store.get ⟨i, hi⟩ = c5_record ∧
      (rotate_refresh_token c5_token 10 c5_state).2.store =
        c5_state.store.set i { c5_record with is_revoked := true } ∧
      ∀ j, j ≠ i →
        (rotate_refresh_token c5_token 10 c5_state).2.store[j]? =
          c5_state.store[j]? :=
  C5_expired_revokes_only_itself c5_token ⟨"u5", 5, .web⟩ c5_record 10 c5_state
    rfl (by decide) (by decide) (by decide)

/-- C6 (as stated, refuted): on a signature failure the returned failure does
NOT carry the invalid classification: `verify_refresh_token` throws
`Invalid refresh token`, but the `catch` of `rotate_refresh_token` matches
messages case-sensitively against the lowercase `"invalid"`, misses the
capitalized message, and returns the generic `Failed to refresh token`
instead. (The store is still untouched.) -/
theorem C6_counterexample :
    verify_refresh_token c6_bad_token 10 = .error "Invalid refresh token" ∧
    rotate_refresh_token c6_bad_token 10 c6_state =
      (⟨false, none, some "Failed to refresh token", some false⟩, c6_state) ∧
    some "Failed to refresh token" ≠ some "Invalid refresh token" := by
  refine ⟨rfl, rfl, by decide⟩

/-- C6 (amended): whenever verification of the presented token fails (bad
signature, wrong `type` claim, or expired JWT), `rotate_refresh_token`
returns a failure with `should_logout = false` and leaves the system state
exactly as it was (no store access); the failure message is the propagated
`Refresh token expired` in the expired case, and the generic
`Failed to refresh token` in the invalid-signature and wrong-type cases
(the `catch`'s case-sensitive `includes("invalid")` never matches). -/
theorem C6_verify_failure_no_store_access (t : JwtToken) (now : Nat)
    (s : SysState) (msg : String)
    (hv : verify_refresh_token t now = .error msg) :
    rotate_refresh_token t now s =
      (⟨false, none,
        some (if msg = "Refresh token expired" then "Refresh token expired"
              else "Failed to refresh token"), some false⟩, s) := by
  unfold rotate_refresh_token
  simp only [hv]
  rw [rotate_catch_eval msg (by
    rcases verify_refresh_error_cases t now msg hv with h | h | h
    exacts [Or.inl h, Or.inr (Or.inl h), Or.inr (Or.inr (Or.inl h))])]

/-- Witness for C6 (amended): rotating the JWT-expired `c6_expired_token` at
200 propagates the expired message and returns the state unchanged. -/
theorem C6_witness :
    rotate_refresh_token c6_expired_token 200 c6_state =
      (⟨false, none,
        some (if "Refresh token expired" = "Refresh token expired"
              then "Refresh token expired" else "Failed to refresh token"),
        some false⟩, c6_state) :=
  C6_verify_failure_no_store_access c6_expired_token 200 c6_state
    "Refresh token expired" rfl

/-- C7: for every `(user_id, device_type)` (and optional family id),
`generate_token_pair` succeeds and the pair round-trips through
verification at the same instant: the access token verifies to the same
`user_id`, and the refresh token verifies to the same `user_id`, the pair's
family id (the given one, or the freshly minted `next_uuid`), and the same
`device_type`. -/
theorem C7_issue_pair_round_trip (user_id : String) (device_type : e_device_type)
    (family_id : Option Nat) (now : Nat) (s : SysState) :
    ∃ pair s2,
      generate_token_pair user_id device_type family_id now s = .ok (pair, s2) ∧
      verify_access_token pair.access_token now = .ok ⟨user_id⟩ ∧
      verify_refresh_token pair.refresh_token now =
        .ok ⟨user_id, family_id.getD s.next_uuid, device_type⟩ := by
  cases device_type with
  | web =>
    refine ⟨⟨⟨.access user_id, JWT_SECRET, now, now + 900000⟩,
      ⟨.refresh user_id (family_id.getD s.next_uuid) .web, JWT_REFRESH_SECRET,
        now, now + 604800000⟩, JWT_ACCESS_EXPIRY, JWT_REFRESH_EXPIRY_WEB⟩,
      ⟨s.store ++ [⟨user_id,
        ⟨.refresh user_id (family_id.getD s.next_uuid) .web, JWT_REFRESH_SECRET,
          now, now + 604800000⟩, family_id.getD s.next_uuid, .web,
        now + 604800000, now, false⟩],
        match family_id with | some _ => s.next_uuid | none => s.next_uuid + 1⟩,
      ?_, ?_, ?_⟩
    · unfold generate_token_pair
      simp only [expiry_access_eval, expiry_web_eval]
      cases family_id <;> rfl
    · exact verify_access_ok_of _ _ _ rfl
        (by show now < now + 900000; omega) rfl
    · exact verify_refresh_ok_of _ _ _ _ _ rfl
        (by show now < now + 604800000; omega) rfl
  | mobile =>
    refine ⟨⟨⟨.access user_id, JWT_SECRET, now, now + 900000⟩,
      ⟨.refresh user_id (family_id.getD s.next_uuid) .mobile, JWT_REFRESH_SECRET,
        now, now + 7776000000⟩, JWT_ACCESS_EXPIRY, JWT_REFRESH_EXPIRY_MOBILE⟩,
      ⟨s.store ++ [⟨user_id,
        ⟨.refresh user_id (family_id.getD s.next_uuid) .mobile, JWT_REFRESH_SECRET,
          now, now + 7776000000⟩, family_id.getD s.next_uuid, .mobile,
        now + 7776000000, now, false⟩],
        match family_id with | some _ => s.next_uuid | none => s.next_uuid + 1⟩,
      ?_, ?_, ?_⟩
    · unfold generate_token_pair
      simp only [expiry_access_eval, expiry_mobile_eval]
      cases family_id <;> rfl
    · exact verify_access_ok_of _ _ _ rfl
        (by show now < now + 900000; omega) rfl
    · exact verify_refresh_ok_of _ _ _ _ _ rfl
        (by show now < now + 7776000000; omega) rfl

/-- C8: a request carrying only an expired access-token cookie (correct
secret, expiry instant not after `now`) and no `Authorization` header is
rejected by `authenticate_token` with the HTTP 401 "Token expirado"
response — not the missing-token response and not the invalid-token
response. -/
theorem C8_expired_cookie_rejected_as_expired (cookie : JwtToken) (now : Nat)
    (users : List String) (hsecret : cookie.secret = JWT_SECRET)
    (hexp : cookie.exp ≤ now) :
    authenticate_token ⟨some cookie, none⟩ now users =
      .error ⟨401, "Token expirado",
        "El token de acceso ha expirado. Refrescá tu sesión."⟩ ∧
    ("Token expirado" : String) ≠ "Token de acceso requerido" ∧
    ("Token expirado" : String) ≠ "Token inválido" := by
  refine ⟨?_, by decide, by decide⟩
  have hva : verify_access_token cookie now = .error "Access token expired" := by
    unfold verify_access_token jwt_verify
    rw [hsecret]
    simp [hexp]
  simp only [authenticate_token, extract_token, hva]
  rw [if_pos (by decide : string_includes "Access token expired" "expired" = true)]

/-- Witness for C8: the expired cookie `c8_cookie` at instant 10, with no
header, produces the expired rejection. -/
theorem C8_witness :
    authenticate_token ⟨some c8_cookie, none⟩ 10 ["u8"] =
      .error ⟨401, "Token expirado",
        "El token de acceso ha expirado. Refrescá tu sesión."⟩ ∧
    ("Token expirado" : String) ≠ "Token de acceso requerido" ∧
    ("Token expirado" : String) ≠ "Token inválido" :=
  C8_expired_cookie_rejected_as_expired c8_cookie 10 ["u8"] rfl (by decide)

/-- C9: every store-mutating operation of the engine (pair generation,
rotation, single revocation, user-wide revocation, family-wide revocation),
from any store state, only ever appends new records and flips `is_revoked`
from false to true: no pre-existing record's `user_id`, `token_hash`,
`family_id`, `device_type`, `expires_at` or `created_at` changes, no record
is removed, and `is_revoked` never returns from true to false. -/
theorem C9_store_lifecycle (op : Operation) (now : Nat) (s : SysState) :
    store_evolves s.store (apply_op op now s).store := by
  cases op with
  | generate u dt fid =>
    cases hg : generate_token_pair u dt fid now s with
    | ok res =>
      obtain ⟨rec, hrec⟩ :=
        generate_store_shape u dt fid now s res.1 res.2 (by rw [hg])
      simp only [apply_op, hg]
      rw [hrec]
      exact store_evolves_append _ _
    | error msg =>
      simp only [apply_op, hg]
      exact store_evolves_refl _
  | rotate t => exact rotate_store_evolves t now s
  | revoke t => exact store_evolves_update_one s.store (hash_token t)
  | revoke_all_user u =>
    exact store_evolves_map _ (fun r => record_evolves_revoke_if _ r) s.store
  | revoke_family f =>
    exact store_evolves_map _ (fun r => record_evolves_revoke_if _ r) s.store

/-- Witness for C9: rotating a token against `c9_state` evolves the store
per the lifecycle invariant. -/
theorem C9_witness :
    store_evolves c9_state.store
      (apply_op (.rotate ⟨.refresh "u9" 8 .web, JWT_REFRESH_SECRET, 0, 100⟩)
        10 c9_state).store :=
  C9_store_lifecycle (.rotate ⟨.refresh "u9" 8 .web, JWT_REFRESH_SECRET, 0, 100⟩)
    10 c9_state

/-- C10: `rotate_refresh_token` is total at its interface — it always returns
a structured result; on every failure the result carries `success = false`, a
non-empty error message, and a defined `should_logout` flag; and
`should_logout = true` happens only when the reuse-detection branch was taken
(the token verified and its fingerprint was absent or its record already
revoked). -/
theorem C10_rotate_total_structured (t : JwtToken) (now : Nat) (s : SysState) :
    ((rotate_refresh_token t now s).1.success = false →
      ∃ msg, (rotate_refresh_token t now s).1.error = some msg ∧ msg ≠ "" ∧
        ∃ b, (rotate_refresh_token t now s).1.should_logout = some b) ∧
    ((rotate_refresh_token t now s).1.should_logout = some true →
      ∃ d, verify_refresh_token t now = .ok d ∧
        reuse_ready s.store (hash_token t)) := by
  unfold rotate_refresh_token
  cases hv : verify_refresh_token t now with
  | error msg =>
    obtain ⟨m, hm, hne⟩ := rotate_catch_shape msg
    simp only [hm]
    exact ⟨fun _ => ⟨m, rfl, hne, false, rfl⟩, fun h => by cases h⟩
  | ok d =>
    cases hf : find_one_by_hash s.store (hash_token t) with
    | none =>
      simp only [hf]
      refine ⟨fun _ => ⟨_, rfl, by decide, true, rfl⟩, fun _ => ⟨d, rfl, ?_⟩⟩
      intro rec h
      rw [hf] at h
      cases h
    | some rec =>
      simp only [hf]
      by_cases hrev : rec.is_revoked = true
      · simp only [if_pos hrev]
        refine ⟨fun _ => ⟨_, rfl, by decide, true, rfl⟩, fun _ => ⟨d, rfl, ?_⟩⟩
        intro rec' h
        rw [hf] at h
        cases h
        exact hrev
      · simp only [if_neg hrev]
        by_cases hexp : rec.expires_at < now
        · simp only [if_pos hexp]
          exact ⟨fun _ => ⟨_, rfl, by decide, false, rfl⟩, fun h => by cases h⟩
        · simp only [if_neg hexp]
          cases hg : generate_token_pair d.user_id d.device_type
              (some d.family_id) now
              ⟨update_one_by_hash s.store (hash_token t), s.next_uuid⟩ with
          | ok res =>
            simp only [hg]
            refine ⟨fun h => ?_, fun h => ?_⟩ <;> simp at h
          | error msg =>
            obtain ⟨m, hm, hne⟩ := rotate_catch_shape msg
            simp only [hg, hm]
            exact ⟨fun _ => ⟨m, rfl, hne, false, rfl⟩, fun h => by cases h⟩

/-- Witness for C10: evaluating the failure-shape guarantees at the
unverifiable `c10_token`. -/
theorem C10_witness :
    ((rotate_refresh_token c10_token 0 c10_state).1.success = false →
      ∃ msg, (rotate_refresh_token c10_token 0 c10_state).1.error = some msg ∧
        msg ≠ "" ∧
        ∃ b, (rotate_refresh_token c10_token 0 c10_state).1.should_logout =
          some b) ∧
    ((rotate_refresh_token c10_token 0 c10_state).1.should_logout = some true →
      ∃ d, verify_refresh_token c10_token 0 = .ok d ∧
        reuse_ready c10_state.store (hash_token c10_token)) :=
  C10_rotate_total_structured c10_token 0 c10_state

end ProsKickback
